import Mathlib

/-!
Shallow embedding of the anti-spam gate and email dispatch endpoint of the
luminarcapital repository.

The spam utilities (validateRecaptcha, validateHoneypot, validateTimestamp,
validateSpam) are embedded as pure Lean functions; effects are made explicit:
the current wall clock is an extra `now : Int` argument, the outbound
verification call is an oracle argument, and JavaScript exceptions are
modelled with `Except`.  JavaScript truthiness of optional strings and
numbers, `String.prototype.trim`, and `String.prototype.includes` are
embedded directly.  The API route handler of `src/pages/api/email.ts` is
embedded as a function from an explicit request record, environment record,
clock, and mail-send oracle to a result record carrying the HTTP status, the
JSON body (with field *presence* tracked by `Option`), and the argument of
the mail-send call when one was made.
-/

namespace LuminarSpam

/-- Characters treated as whitespace by JavaScript `String.prototype.trim`
(WhiteSpace and LineTerminator code points). -/
def isJsWhitespace (c : Char) : Bool :=
  c = ' ' || c = '\t' || c = '\n' || c = '\r' || c = '\x0b' || c = '\x0c' ||
  c = '\u00A0' || c = '\u1680' || (0x2000 ≤ c.toNat && c.toNat ≤ 0x200A) ||
  c = '\u2028' || c = '\u2029' || c = '\u202F' || c = '\u205F' ||
  c = '\u3000' || c = '\uFEFF'

/-- Trim leading and trailing whitespace from a character list. -/
def trimChars (l : List Char) : List Char :=
  ((l.dropWhile isJsWhitespace).reverse.dropWhile isJsWhitespace).reverse

/-- Embedding of JavaScript `s.trim()`. -/
def jsTrim (s : String) : String :=
  String.mk (trimChars s.toList)

/-- JavaScript truthiness of an optional string: `undefined`/`null` and the
empty string are falsy. -/
def jsStrTruthy : Option String → Bool
  | none => false
  | some s => decide (s ≠ "")

/-- JavaScript truthiness of an optional number: `undefined`/`null` and `0`
are falsy. -/
def jsIntTruthy : Option Int → Bool
  | none => false
  | some v => decide (v ≠ 0)

/-- Embedding of JavaScript `a || d` for an optional string `a` and a
default `d`. -/
def jsOrDefault : Option String → String → String
  | none, d => d
  | some s, d => if s = "" then d else s

/-- Substring test on character lists (hay analysed recursively). -/
def containsSub (needle : List Char) : List Char → Bool
  | [] => needle.isPrefixOf ([] : List Char)
  | c :: t => needle.isPrefixOf (c :: t) || containsSub needle t

/-- Embedding of JavaScript `s.includes(sub)`. -/
def jsIncludes (s sub : String) : Bool :=
  containsSub sub.toList s.toList

/-! ## Spam validation utilities (src/unnamed/part_000) -/

/-- Embeds `validateHoneypot`: `!honeypotValue || honeypotValue.trim() === ''`. -/
def validateHoneypot : Option String → Bool
  | none => true
  | some s => decide (s = "") || decide (jsTrim s = "")

/-- Embeds `validateTimestamp`: with `elapsed = now - timestamp`, returns
`elapsed >= 3000 && elapsed <= 1800000`.  `Date.now()` is the explicit
argument `now`. -/
def validateTimestamp (timestamp now : Int) : Bool :=
  decide (3000 ≤ now - timestamp) && decide (now - timestamp ≤ 1800000)

/-- Parsed JSON payload of the reCAPTCHA verification service; each field is
optional because the payload may lack it (`data.success` etc. may be
`undefined`). -/
structure RecaptchaData where
  success : Option Bool
  score : Option ℚ
  action : Option String

/-- The decision rule of `validateRecaptcha` applied to a parsed payload:
`data.success === true && data.score >= 0.3 && data.action === expectedAction`
(JavaScript comparisons against `undefined` are false). -/
def recaptchaDecision (data : RecaptchaData) (expectedAction : String) : Bool :=
  decide (data.success = some true) &&
  (match data.score with
   | some q => decide ((3 : ℚ)/10 ≤ q)
   | none => false) &&
  decide (data.action = some expectedAction)

/-- Embeds `validateRecaptcha`.  `secretKey` is `process.env.RECAPTCHA_SECRET_KEY`;
`fetchJson` is the oracle for the awaited `fetch` + `response.json()` pair,
whose `Except.error` case models any thrown network or parse failure.  The
codomain `Except String (Bool × Nat)` models a JavaScript function that may
throw (`Except.error`) and otherwise returns the boolean together with the
number of outbound verification calls made. -/
def validateRecaptcha (secretKey : Option String)
    (fetchJson : Except String RecaptchaData)
    (token expectedAction : String) : Except String (Bool × Nat) :=
  if jsStrTruthy secretKey = false then
    Except.ok (false, 0)
  else
    match fetchJson with
    | Except.error _ => Except.ok (false, 1)
    | Except.ok data => Except.ok (recaptchaDecision data expectedAction, 1)

/-- Result record of `validateSpam`. -/
structure SpamValidationResult where
  isValid : Bool
  reason : Option String
deriving DecidableEq

/-- Embeds `validateSpam`: honeypot check, then timing check, then the
reCAPTCHA verification (`verify` abstracts the awaited
`validateRecaptcha(recaptchaToken, action)` call). -/
def validateSpam (verify : String → String → Bool) (recaptchaToken : String)
    (honeypot : Option String) (timestamp now : Int) (action : String) :
    SpamValidationResult :=
  if validateHoneypot honeypot = false then
    ⟨false, some "Honeypot field filled"⟩
  else if validateTimestamp timestamp now = false then
    ⟨false, some "Suspicious timing"⟩
  else if verify recaptchaToken action = false then
    ⟨false, some "reCAPTCHA validation failed"⟩
  else
    ⟨true, none⟩

/-- Instrumentation of `validateSpam`: how many times the branch structure of
the source reaches the `validateRecaptcha` call (0 when an earlier check
already failed, 1 otherwise). -/
def validateSpamVerifierCalls (honeypot : Option String)
    (timestamp now : Int) : Nat :=
  if validateHoneypot honeypot = false then 0
  else if validateTimestamp timestamp now = false then 0
  else 1

/-! ## Email dispatch endpoint (src/src/pages/api/email.ts) -/

/-- Environment configuration read by the handler. -/
structure Env where
  partnerEmail : Option String
  financingEmail : Option String
  recipientEmail : Option String

/-- The request seen by the handler: HTTP method and destructured body
fields (each possibly absent). -/
structure EmailRequest where
  method : String
  toAddress : Option String
  subject : Option String
  htmlMessage : Option String
  honeypot : Option String
  timestamp : Option Int

/-- Argument record of the `sendEmail` call. -/
structure MailArgs where
  toAddress : Option String
  subject : Option String
  htmlMessage : Option String
deriving DecidableEq

/-- JSON body produced by the handler.  Each field is wrapped in an outer
`Option` recording whether the key is present at all; the inner `Option`
is the JSON value, `none` standing for JSON `null`. -/
structure ApiBody (P : Type) where
  success : Option Bool
  response : Option (Option P)
  error : Option (Option String)

/-- Observable outcome of one handler run: HTTP status, JSON body, and the
argument of the `sendEmail` call when one was made (`none` when mail-send
was not invoked). -/
structure HandlerResult (P : Type) where
  status : Nat
  body : ApiBody P
  mailCall : Option MailArgs

/-- The success-shaped body returned on a silently dropped spam submission. -/
def dropBody (P : Type) : ApiBody P :=
  ⟨some true, some none, some none⟩

/-- The handler's inline honeypot test:
`honeypot && honeypot.trim() !== ''`. -/
def honeypotSpam : Option String → Bool
  | none => false
  | some s => decide (s ≠ "") && decide (jsTrim s ≠ "")

/-- The handler's inline timing test: `timestamp` truthy and
`elapsed < 3000 || elapsed > 1800000` with `elapsed = Date.now() - timestamp`. -/
def timingSpam (now : Int) (timestamp : Option Int) : Bool :=
  jsIntTruthy timestamp &&
    (decide (now - timestamp.getD 0 < 3000) ||
     decide (now - timestamp.getD 0 > 1800000))

/-- The handler's recipient routing: `to` when truthy, otherwise the first
matching subject rule, otherwise `process.env.RECIPIENT_EMAIL`. -/
def resolveRecipient (env : Env) (toAddress subject : Option String) : Option String :=
  if jsStrTruthy toAddress then toAddress
  else if jsStrTruthy subject && jsIncludes (subject.getD "") "Partner" then
    some (jsOrDefault env.partnerEmail "partners@luminarcapital.com")
  else if jsStrTruthy subject && jsIncludes (subject.getD "") "Financing" then
    some (jsOrDefault env.financingEmail "clientsuccess@luminarcapital.com")
  else env.recipientEmail

/-- The argument record the handler passes to `sendEmail`. -/
def mailArgsOf (env : Env) (req : EmailRequest) : MailArgs :=
  ⟨resolveRecipient env req.toAddress req.subject, req.subject, req.htmlMessage⟩

/-- Embeds the default export `handler` of `src/pages/api/email.ts`.
`send` is the oracle for the awaited `sendEmail` call; its `Except.error`
case models a thrown send failure, caught by the handler's `try`/`catch`. -/
def handler (P : Type) (env : Env) (now : Int)
    (send : MailArgs → Except String P) (req : EmailRequest) :
    HandlerResult P :=
  if req.method ≠ "POST" then
    ⟨405, ⟨none, none, some (some "Method not allowed")⟩, none⟩
  else if honeypotSpam req.honeypot then
    ⟨200, dropBody P, none⟩
  else if timingSpam now req.timestamp then
    ⟨200, dropBody P, none⟩
  else
    match send (mailArgsOf env req) with
    | Except.ok r =>
      ⟨200, ⟨some true, some (some r), some none⟩, some (mailArgsOf env req)⟩
    | Except.error m =>
      ⟨500, ⟨some false, some none, some (some m)⟩, some (mailArgsOf env req)⟩

/-- A JSON body carrying all three envelope keys. -/
def isFullEnvelope {P : Type} (b : ApiBody P) : Bool :=
  b.success.isSome && b.response.isSome && b.error.isSome

/-! ## Helper lemmas about trimming -/

theorem dropWhile_eq_nil_iff_all (p : Char → Bool) (l : List Char) :
    l.dropWhile p = [] ↔ l.all p = true := by
  induction l with
  | nil => simp [List.dropWhile]
  | cons a t ih =>
    by_cases h : p a
    · simp [List.dropWhile, h, ih]
    · simp [List.dropWhile, h]

theorem all_dropWhile_iff_all (p : Char → Bool) (l : List Char) :
    (l.dropWhile p).all p = true ↔ l.all p = true := by
  induction l with
  | nil => simp
  | cons a t ih =>
    by_cases h : p a
    · simp [List.dropWhile, h, ih]
    · simp [List.dropWhile, h]

theorem trimChars_eq_nil_iff (l : List Char) :
    trimChars l = [] ↔ l.all isJsWhitespace = true := by
  unfold trimChars
  rw [List.reverse_eq_nil_iff, dropWhile_eq_nil_iff_all, List.all_reverse,
    all_dropWhile_iff_all]

theorem jsTrim_eq_empty_iff (s : String) :
    jsTrim s = "" ↔ s.toList.all isJsWhitespace = true := by
  unfold jsTrim
  rw [show ("" : String) = String.mk [] from rfl]
  constructor
  · intro h
    exact (trimChars_eq_nil_iff s.toList).1 (by injection h)
  · intro h
    rw [(trimChars_eq_nil_iff s.toList).2 h]

/-! ## Claim theorems -/

/-- Claim C5: `validateTimestamp` returns true iff the elapsed time
`now - timestamp` lies in the inclusive window [3000, 1800000]; elapsed 2999
or 1800001 yields false, and every negative elapsed yields false (the
function is total, so nothing is thrown). -/
theorem validateTimestamp_window (timestamp now : Int) :
    (validateTimestamp timestamp now = true ↔
      3000 ≤ now - timestamp ∧ now - timestamp ≤ 1800000) ∧
    (now - timestamp = 2999 → validateTimestamp timestamp now = false) ∧
    (now - timestamp = 1800001 → validateTimestamp timestamp now = false) ∧
    (now - timestamp < 0 → validateTimestamp timestamp now = false) := by
  unfold validateTimestamp
  refine ⟨by simp, ?_, ?_, ?_⟩ <;> intro h <;> simp <;> omega

/-- Claim C5 witness: at elapsed 2999 the check fails. -/
theorem validateTimestamp_window_witness : validateTimestamp 1 3000 = false :=
  (validateTimestamp_window 1 3000).2.1 (by decide)

/-- Claim C6: `validateHoneypot` returns true exactly when the value is
absent or consists only of whitespace, and returns false for every value
containing a non-whitespace character; it is a total pure function. -/
theorem validateHoneypot_clean :
    validateHoneypot none = true ∧
    (∀ s : String, validateHoneypot (some s) = true ↔
      s.toList.all isJsWhitespace = true) ∧
    (∀ s : String, ∀ c ∈ s.toList, isJsWhitespace c = false →
      validateHoneypot (some s) = false) := by
  have key : ∀ s : String, validateHoneypot (some s) = true ↔
      s.toList.all isJsWhitespace = true := by
    intro s
    unfold validateHoneypot
    simp only [Bool.or_eq_true, decide_eq_true_eq]
    constructor
    · rintro (h | h)
      · subst h; rfl
      · exact (jsTrim_eq_empty_iff s).1 h
    · intro h
      exact Or.inr ((jsTrim_eq_empty_iff s).2 h)
  refine ⟨rfl, key, ?_⟩
  intro s c hc hcw
  have hall : ¬ s.toList.all isJsWhitespace = true := by
    simp only [List.all_eq_true]
    intro hcontra
    have := hcontra c hc
    rw [hcw] at this
    exact Bool.false_ne_true this
  have := (key s).not.2 hall
  simpa using this

/-- Claim C6 witness: a honeypot value with a non-whitespace character is
judged filled. -/
theorem validateHoneypot_clean_witness : validateHoneypot (some "x") = false :=
  validateHoneypot_clean.2.2 "x" 'x' (by decide) (by decide)

/-- Claim C1: `validateSpam` checks honeypot, then timing, then the bot
verifier, short-circuiting with the fixed reasons; the verifier is reached
zero times when an earlier check fails (and the result is then independent
of the verifier), once otherwise. -/
theorem validateSpam_ordered (verify : String → String → Bool)
    (recaptchaToken : String) (honeypot : Option String)
    (timestamp now : Int) (action : String) :
    (validateHoneypot honeypot = false →
      validateSpam verify recaptchaToken honeypot timestamp now action =
        ⟨false, some "Honeypot field filled"⟩ ∧
      validateSpamVerifierCalls honeypot timestamp now = 0) ∧
    (validateHoneypot honeypot = true → validateTimestamp timestamp now = false →
      validateSpam verify recaptchaToken honeypot timestamp now action =
        ⟨false, some "Suspicious timing"⟩ ∧
      validateSpamVerifierCalls honeypot timestamp now = 0) ∧
    (validateHoneypot honeypot = true → validateTimestamp timestamp now = true →
      verify recaptchaToken action = false →
      validateSpam verify recaptchaToken honeypot timestamp now action =
        ⟨false, some "reCAPTCHA validation failed"⟩ ∧
      validateSpamVerifierCalls honeypot timestamp now = 1) ∧
    (validateHoneypot honeypot = true → validateTimestamp timestamp now = true →
      verify recaptchaToken action = true →
      validateSpam verify recaptchaToken honeypot timestamp now action =
        ⟨true, none⟩) ∧
    ((validateHoneypot honeypot = false ∨ validateTimestamp timestamp now = false) →
      ∀ w : String → String → Bool,
        validateSpam w recaptchaToken honeypot timestamp now action =
          validateSpam verify recaptchaToken honeypot timestamp now action) := by
  unfold validateSpam validateSpamVerifierCalls
  refine ⟨?_, ?_, ?_, ?_, ?_⟩
  · intro h; simp [h]
  · intro h1 h2; simp [h1, h2]
  · intro h1 h2 h3; simp [h1, h2, h3]
  · intro h1 h2 h3; simp [h1, h2, h3]
  · rintro (h | h) w <;> simp [h]

/-- Claim C1 witness: with the honeypot filled, the verdict is the honeypot
reason and the verifier-call count is zero. -/
theorem validateSpam_ordered_witness :
    validateSpam (fun _ _ => true) "tok" (some "bot") 0 10000 "contact_form" =
      ⟨false, some "Honeypot field filled"⟩ ∧
    validateSpamVerifierCalls (some "bot") 0 10000 = 0 :=
  (validateSpam_ordered (fun _ _ => true) "tok" (some "bot") 0 10000
    "contact_form").1 (by decide)

/-- Claim C3: with the secret configured, `validateRecaptcha` judges a
well-formed service response valid iff `success = true`, `score ≥ 3/10`
(inclusive) and the action matches; score exactly 3/10 passes and
2999/10000 fails. -/
theorem validateRecaptcha_threshold (secretKey : Option String)
    (fetchSuccess : Bool) (score : ℚ) (action token expectedAction : String)
    (hsec : jsStrTruthy secretKey = true) :
    (validateRecaptcha secretKey
        (Except.ok ⟨some fetchSuccess, some score, some action⟩)
        token expectedAction = Except.ok (true, 1) ↔
      fetchSuccess = true ∧ (3 : ℚ)/10 ≤ score ∧ action = expectedAction) ∧
    validateRecaptcha secretKey
        (Except.ok ⟨some true, some ((3 : ℚ)/10), some expectedAction⟩)
        token expectedAction = Except.ok (true, 1) ∧
    validateRecaptcha secretKey
        (Except.ok ⟨some true, some ((2999 : ℚ)/10000), some expectedAction⟩)
        token expectedAction = Except.ok (false, 1) := by
  unfold validateRecaptcha recaptchaDecision
  refine ⟨?_, ?_, ?_⟩
  · simp [hsec, and_assoc]
  · simp [hsec]
  · simp only [hsec]
    norm_num

/-- Claim C3 witness: a response with score exactly 3/10 and matching action
is judged valid. -/
theorem validateRecaptcha_threshold_witness :
    validateRecaptcha (some "secret")
        (Except.ok ⟨some true, some ((3 : ℚ)/10), some "contact_form"⟩)
        "tok" "contact_form" = Except.ok (true, 1) :=
  (validateRecaptcha_threshold (some "secret") true ((3 : ℚ)/10)
    "contact_form" "tok" "contact_form" (by decide)).2.1

/-- Claim C4: `validateRecaptcha` fails closed: the result is always a
normal return (never a thrown exception); with the secret unset it returns
false having made no outbound call; with the secret set, a thrown fetch or
parse failure collapses to false. -/
theorem validateRecaptcha_fail_closed (secretKey : Option String)
    (fetchJson : Except String RecaptchaData) (token expectedAction : String) :
    (∃ b n, validateRecaptcha secretKey fetchJson token expectedAction =
      Except.ok (b, n)) ∧
    (jsStrTruthy secretKey = false →
      validateRecaptcha secretKey fetchJson token expectedAction =
        Except.ok (false, 0)) ∧
    (∀ e, jsStrTruthy secretKey = true → fetchJson = Except.error e →
      validateRecaptcha secretKey fetchJson token expectedAction =
        Except.ok (false, 1)) := by
  unfold validateRecaptcha
  refine ⟨?_, ?_, ?_⟩
  · by_cases h : jsStrTruthy secretKey = false
    · exact ⟨false, 0, by simp [h]⟩
    · cases fetchJson with
      | error e => exact ⟨false, 1, by simp [h]⟩
      | ok d => exact ⟨recaptchaDecision d expectedAction, 1, by simp [h]⟩
  · intro h; simp [h]
  · intro e hs hf; simp [hs, hf]

/-- Claim C4 witness: with the secret unset and a failing network oracle,
the verifier returns false with zero outbound calls. -/
theorem validateRecaptcha_fail_closed_witness :
    validateRecaptcha none (Except.error "network down") "tok" "contact_form" =
      Except.ok (false, 0) :=
  (validateRecaptcha_fail_closed none (Except.error "network down") "tok"
    "contact_form").2.1 rfl

/-- Claim C2: whenever the handler's inline spam tests detect spam
(honeypot filled, or timing implausible), a POST request gets HTTP 200 with
the success-shaped body and the mail-send capability is not invoked. -/
theorem handler_silent_drop (P : Type) (env : Env) (now : Int)
    (send : MailArgs → Except String P) (req : EmailRequest)
    (hm : req.method = "POST")
    (hspam : honeypotSpam req.honeypot = true ∨ timingSpam now req.timestamp = true) :
    handler P env now send req = ⟨200, ⟨some true, some none, some none⟩, none⟩ := by
  unfold handler
  rcases hspam with h | h
  · simp [hm, h, dropBody]
  · by_cases hh : honeypotSpam req.honeypot
    · simp [hm, hh, dropBody]
    · simp [hm, hh, h, dropBody]

/-- Claim C2 witness: a POST submission with honeypot "spammerbot" gets the
success-shaped 200 body and no mail-send call, for an arbitrary timestamp. -/
theorem handler_silent_drop_witness :
    handler Nat ⟨none, none, none⟩ 999999999 (fun _ => Except.ok 7)
      ⟨"POST", none, some "Hello", some "<p>hi</p>", some "spammerbot", some 1⟩ =
      ⟨200, ⟨some true, some none, some none⟩, none⟩ :=
  handler_silent_drop Nat ⟨none, none, none⟩ 999999999 (fun _ => Except.ok 7)
    ⟨"POST", none, some "Hello", some "<p>hi</p>", some "spammerbot", some 1⟩
    rfl (Or.inl (by decide))

/-- Claim C7: on a POST submission that passes the spam checks, a normal
mail-send result is mapped to HTTP 200 with the provider result in the
body, and a thrown mail-send failure with message m is caught and mapped to
HTTP 500 with error m; both are normal returns of the handler. -/
theorem handler_send_outcome (P : Type) (env : Env) (now : Int)
    (send : MailArgs → Except String P) (req : EmailRequest)
    (hm : req.method = "POST")
    (hh : honeypotSpam req.honeypot = false)
    (ht : timingSpam now req.timestamp = false) :
    (∀ r, send (mailArgsOf env req) = Except.ok r →
      handler P env now send req =
        ⟨200, ⟨some true, some (some r), some none⟩, some (mailArgsOf env req)⟩) ∧
    (∀ m, send (mailArgsOf env req) = Except.error m →
      handler P env now send req =
        ⟨500, ⟨some false, some none, some (some m)⟩, some (mailArgsOf env req)⟩) := by
  constructor <;> intro x hx <;> simp [handler, hm, hh, ht, hx]

/-- Claim C7 witness: when the mail capability throws "SMTP timeout", the
handler returns 500 with that message. -/
theorem handler_send_outcome_witness :
    handler Nat ⟨none, none, some "default@luminarcapital.com"⟩ 10000
      (fun _ => Except.error "SMTP timeout")
      ⟨"POST", none, some "Hello", some "<p>hi</p>", none, some 0⟩ =
      ⟨500, ⟨some false, some none, some (some "SMTP timeout")⟩,
        some (mailArgsOf ⟨none, none, some "default@luminarcapital.com"⟩
          ⟨"POST", none, some "Hello", some "<p>hi</p>", none, some 0⟩)⟩ :=
  (handler_send_outcome Nat ⟨none, none, some "default@luminarcapital.com"⟩
    10000 (fun _ => Except.error "SMTP timeout")
    ⟨"POST", none, some "Hello", some "<p>hi</p>", none, some 0⟩
    rfl (by decide) (by decide)).2 "SMTP timeout" rfl

/-- Claim C8: on a POST submission that passes the spam checks and has no
truthy destination field, the mail-send capability is invoked with the
routed recipient, subject and html body; routing is ordered with first
match winning: subject containing "Partner" goes to the partner mailbox,
else "Financing" to the financing mailbox, else the default configured
mailbox. -/
theorem handler_routing (P : Type) (env : Env) (now : Int)
    (send : MailArgs → Except String P) (req : EmailRequest)
    (hm : req.method = "POST")
    (hh : honeypotSpam req.honeypot = false)
    (ht : timingSpam now req.timestamp = false)
    (hto : jsStrTruthy req.toAddress = false) :
    (handler P env now send req).mailCall = some (mailArgsOf env req) ∧
    (∀ s, req.subject = some s → jsIncludes s "Partner" = true →
      resolveRecipient env req.toAddress req.subject =
        some (jsOrDefault env.partnerEmail "partners@luminarcapital.com")) ∧
    (∀ s, req.subject = some s → jsIncludes s "Partner" = false →
      jsIncludes s "Financing" = true →
      resolveRecipient env req.toAddress req.subject =
        some (jsOrDefault env.financingEmail "clientsuccess@luminarcapital.com")) ∧
    (∀ s, req.subject = some s → jsIncludes s "Partner" = false →
      jsIncludes s "Financing" = false →
      resolveRecipient env req.toAddress req.subject = env.recipientEmail) ∧
    (req.subject = none →
      resolveRecipient env req.toAddress req.subject = env.recipientEmail) := by
  refine ⟨?_, ?_, ?_, ?_, ?_⟩
  · cases hsend : send (mailArgsOf env req) <;>
      simp [handler, hm, hh, ht, hsend]
  · intro s hs hp
    by_cases hs0 : s = ""
    · subst hs0; exact absurd hp (by decide)
    · unfold resolveRecipient
      have hst : jsStrTruthy (some s) = true := by simp [jsStrTruthy, hs0]
      simp [hto, hs, hst, hp]
  · intro s hs hp hf
    by_cases hs0 : s = ""
    · subst hs0; exact absurd hf (by decide)
    · unfold resolveRecipient
      have hst : jsStrTruthy (some s) = true := by simp [jsStrTruthy, hs0]
      simp [hto, hs, hst, hp, hf]
  · intro s hs hp hf
    unfold resolveRecipient
    simp [hto, hs, hp, hf]
  · intro hs
    unfold resolveRecipient
    have h0 : jsStrTruthy (none : Option String) = false := rfl
    simp [hto, hs, h0]

/-- Claim C8 witness: subject "Partner inquiry" with no destination field is
routed to the partner mailbox and the mail-send capability is invoked with
the routed argument record. -/
theorem handler_routing_witness :
    (handler Nat ⟨none, none, none⟩ 10000 (fun _ => Except.ok 3)
      ⟨"POST", none, some "Partner inquiry", some "<p>hi</p>", none, some 0⟩).mailCall =
      some (mailArgsOf ⟨none, none, none⟩
        ⟨"POST", none, some "Partner inquiry", some "<p>hi</p>", none, some 0⟩) ∧
    resolveRecipient ⟨none, none, none⟩ none (some "Partner inquiry") =
      some "partners@luminarcapital.com" :=
  ⟨(handler_routing Nat ⟨none, none, none⟩ 10000 (fun _ => Except.ok 3)
      ⟨"POST", none, some "Partner inquiry", some "<p>hi</p>", none, some 0⟩
      rfl (by decide) (by decide) rfl).1,
    (handler_routing Nat ⟨none, none, none⟩ 10000 (fun _ => Except.ok 3)
      ⟨"POST", none, some "Partner inquiry", some "<p>hi</p>", none, some 0⟩
      rfl (by decide) (by decide) rfl).2.1 "Partner inquiry" rfl (by decide)⟩

/-- Claim C9 counterexample: the wrong-method branch does not return the
full three-field envelope — a GET request gets a body carrying only the
error key. -/
theorem handler_envelope_counterexample :
    isFullEnvelope (handler Nat ⟨none, none, none⟩ 0 (fun _ => Except.ok 0)
      ⟨"GET", none, none, none, none, none⟩).body = false := rfl

/-- Claim C9 (amended): every POST-branch response (silent drop, send
success, send failure) carries all three envelope fields, while the
wrong-method branch returns status 405 with a body carrying only the error
field. -/
theorem handler_envelope_amended (P : Type) (env : Env) (now : Int)
    (send : MailArgs → Except String P) (req : EmailRequest) :
    (req.method = "POST" →
      isFullEnvelope (handler P env now send req).body = true) ∧
    (req.method ≠ "POST" →
      (handler P env now send req).status = 405 ∧
      (handler P env now send req).body =
        ⟨none, none, some (some "Method not allowed")⟩) := by
  constructor
  · intro hm
    by_cases hh : honeypotSpam req.honeypot
    · simp [handler, hm, hh, isFullEnvelope, dropBody]
    · by_cases ht : timingSpam now req.timestamp
      · simp [handler, hm, hh, ht, isFullEnvelope, dropBody]
      · cases hsend : send (mailArgsOf env req) <;>
          simp [handler, hm, hh, ht, hsend, isFullEnvelope]
  · intro hm
    constructor <;> simp [handler, hm]

/-- Claim C9 (amended) witness: a concrete POST request yields a full
three-field envelope. -/
theorem handler_envelope_amended_witness :
    isFullEnvelope (handler Nat ⟨none, none, none⟩ 0 (fun _ => Except.ok 0)
      ⟨"POST", none, none, none, none, none⟩).body = true :=
  (handler_envelope_amended Nat ⟨none, none, none⟩ 0 (fun _ => Except.ok 0)
    ⟨"POST", none, none, none, none, none⟩).1 rfl

/-- Claim C10: a POST submission with clean honeypot whose timestamp is
falsy (absent or zero) skips the timing test entirely — the inline timing
check cannot fire — and proceeds to recipient resolution and the mail-send
call. -/
theorem handler_timestamp_bypass (P : Type) (env : Env) (now : Int)
    (send : MailArgs → Except String P) (req : EmailRequest)
    (hm : req.method = "POST")
    (hh : honeypotSpam req.honeypot = false)
    (ht : jsIntTruthy req.timestamp = false) :
    timingSpam now req.timestamp = false ∧
    (handler P env now send req).mailCall = some (mailArgsOf env req) := by
  have hts : timingSpam now req.timestamp = false := by
    simp [timingSpam, ht]
  refine ⟨hts, ?_⟩
  cases hsend : send (mailArgsOf env req) <;>
    simp [handler, hm, hh, hts, hsend]

/-- Claim C10 witness: with no timestamp at all, a clean POST submission
reaches the mail-send call. -/
theorem handler_timestamp_bypass_witness :
    timingSpam 5 (none : Option Int) = false ∧
    (handler Nat ⟨none, none, none⟩ 5 (fun _ => Except.ok 9)
      ⟨"POST", none, some "Hello", some "<p>hi</p>", none, none⟩).mailCall =
      some (mailArgsOf ⟨none, none, none⟩
        ⟨"POST", none, some "Hello", some "<p>hi</p>", none, none⟩) :=
  handler_timestamp_bypass Nat ⟨none, none, none⟩ 5 (fun _ => Except.ok 9)
    ⟨"POST", none, some "Hello", some "<p>hi</p>", none, none⟩ rfl rfl rfl

end LuminarSpam
